import Mathlib

/-!
Shallow embedding of the messaging core of the `fp8/gcutils` repository:
the `retry` combinator (`src/core/helper.ts`), the `createError` helper
(`src/core/helper.ts`), the Pub/Sub delivery callback and logger-payload
builder (`src/pubsub/base.ts`), and the `Publisher` / `Subscriber` /
`PubSubService` classes (`src/pubsub/index.ts`).

JavaScript values that the code throws, returns, or inspects with
`instanceof` are modelled by the small universe `JsVal`; `Error` instances
(including the `RetryError` subclass from `src/core/excepts.ts`) are the
`JsErr` type.  Promises are modelled by returning the settled outcome
directly; `async` suspension, wall-clock delays and log output that no
claim depends on are not part of the state.
-/

/-- JavaScript `Error` instances.  `retryError` models the `RetryError`
subclass (`src/core/excepts.ts`); `plainError` models a plain `Error`.
Only the `message` property is carried: the `cause` option set by
`createError` is not inspected anywhere in the verified code. -/
inductive JsErr where
  | retryError (msg : String)
  | plainError (msg : String)
deriving DecidableEq, Repr

/-- The message text of an error (`error.message`). -/
def JsErr.message : JsErr → String
  | .retryError m => m
  | .plainError m => m

/-- A JavaScript value as thrown, returned or stored by the embedded code:
`undefined`, a string, a number, or an `Error` instance. -/
inductive JsVal where
  | undef
  | str (s : String)
  | int (n : Int)
  | err (e : JsErr)
deriving DecidableEq, Repr

/-- `v instanceof Error`. -/
def JsVal.isErrorInstance : JsVal → Bool
  | .err _ => true
  | _ => false

/-- `v instanceof RetryError`. -/
def JsVal.isRetryError : JsVal → Bool
  | .err (.retryError _) => true
  | _ => false

/-- JavaScript string interpolation `${v}` for the values of `JsVal`. -/
def JsVal.interp : JsVal → String
  | .undef => "undefined"
  | .str s => s
  | .int n => toString n
  | .err e => "Error: " ++ e.message

/-- `createError` from `src/core/helper.ts` lines 23-52.  Given a `message`
(any value) and an optional caught `error`, returns an `Error`:
- `message` a string, `error` absent: `new Error(message)`;
- `message` a string ending in a colon: append the original error's
  message (or its string form when it is not an `Error`);
- `message` a string not ending in a colon: `new Error(message)` with the
  original error attached as `cause` (the cause is not modelled);
- `message` itself an `Error`: returned unchanged;
- otherwise: `new Error` with an `Unknown error` text. -/
def createError (message : JsVal) (error : Option JsVal) : JsErr :=
  match message with
  | .str m =>
    match error with
    | none => .plainError m
    | some e =>
      if m.endsWith ":" then
        match e with
        | .err ee => .plainError (m ++ " " ++ ee.message)
        | other => .plainError (m ++ " " ++ other.interp)
      else
        .plainError m
  | .err e => e
  | other => .plainError ("Unknown error " ++ other.interp)

/-! ## The retry combinator (`src/core/helper.ts` lines 117-184) -/

/-- The resolved options of `retry` (`IRetryOptions` with the defaults of
lines 121-127 already applied).  `waitFor` only controls the wall-clock
delay between attempts and is not modelled. -/
structure RetryOptions where
  maxRetry : Nat
  retryOnUndefined : Bool
  retryOnAllErrors : Bool
  shouldRetry : Option (JsVal → Bool)

/-- `opt.shouldRetry && opt.shouldRetry(v)`: false when the predicate is
absent, its verdict otherwise. -/
def RetryOptions.shouldRetryOn (opt : RetryOptions) (v : JsVal) : Bool :=
  match opt.shouldRetry with
  | some p => p v
  | none => false

/-- The settled outcome of one invocation of the action: the promise
resolves with a value or rejects with a thrown value (JavaScript allows
throwing non-`Error` values). -/
inductive ActionResult where
  | ok (v : JsVal)
  | thrown (v : JsVal)
deriving DecidableEq, Repr

/-- Whether an invocation outcome is a rejection. -/
def ActionResult.isThrown : ActionResult → Bool
  | .ok _ => false
  | .thrown _ => true

/-- What one loop iteration of `retry` decides: go to the next attempt
(`continue`), return a value, or re-raise a thrown value. -/
inductive StepDecision where
  | next
  | ret (v : JsVal)
  | raise (v : JsVal)
deriving DecidableEq, Repr

/-- The `catch` block of `retry` (`src/core/helper.ts` lines 162-179):
- `opt.shouldRetry && err instanceof Error && opt.shouldRetry(err)` →
  continue;
- else `opt.retryOnAllErrors` → continue;
- else `err instanceof RetryError` → continue;
- else re-raise `err`. -/
def catchStep (opt : RetryOptions) (err : JsVal) : StepDecision :=
  if err.isErrorInstance && opt.shouldRetryOn err then .next
  else if opt.retryOnAllErrors then .next
  else if err.isRetryError then .next
  else .raise err

/-- One loop iteration of `retry` applied to the settled outcome of the
action (`src/core/helper.ts` lines 140-180).  On a resolved value:
`shouldRetry` verdict → continue; an `Error` value is thrown (landing in
the `catch` block); `undefined` under `retryOnUndefined` → continue; else
return the value.  On a rejection: the `catch` block. -/
def attemptStep (opt : RetryOptions) (r : ActionResult) : StepDecision :=
  match r with
  | .ok result =>
    if opt.shouldRetryOn result then .next
    else if result.isErrorInstance then catchStep opt result
    else if result = .undef && opt.retryOnUndefined then .next
    else .ret result
  | .thrown err => catchStep opt err

/-- The final outcome of a `retry` call: a returned value (possibly
`undefined`, also after exhausting `maxRetry`) or a re-raised value. -/
inductive RetryOutcome where
  | ret (v : JsVal)
  | raise (v : JsVal)
deriving DecidableEq, Repr

/-- The `while (counter < opt.maxRetry)` loop of `retry`
(`src/core/helper.ts` lines 129-183).  `action k` is the settled outcome
of the k-th invocation (1-based); `calls` invocations have already
happened and `fuel` iterations remain; the result pairs the outcome with
the total number of invocations made.  Exhausted fuel is line 183:
`return undefined`. -/
def retryAux (action : Nat → ActionResult) (opt : RetryOptions) :
    Nat → Nat → RetryOutcome × Nat
  | calls, 0 => (.ret .undef, calls)
  | calls, fuel + 1 =>
    match attemptStep opt (action (calls + 1)) with
    | .next => retryAux action opt (calls + 1) fuel
    | .ret v => (.ret v, calls + 1)
    | .raise v => (.raise v, calls + 1)

/-- `retry(action, options)` (`src/core/helper.ts` lines 117-184) with the
options already resolved: run the loop from zero invocations with
`maxRetry` iterations available. -/
def retry (action : Nat → ActionResult) (opt : RetryOptions) :
    RetryOutcome × Nat :=
  retryAux action opt 0 opt.maxRetry

/-- Whether the outcome returns (not raises) an `Error` instance as the
success value. -/
def RetryOutcome.returnsErrorValue : RetryOutcome → Bool
  | .ret v => v.isErrorInstance
  | .raise _ => false

/-- Replace every attempt that resolves with an `Error` value by the same
`Error` thrown: the hypothetical action used to state that `retry` treats
a returned `Error` exactly like a raised one. -/
def throwifyErrors (action : Nat → ActionResult) : Nat → ActionResult :=
  fun k =>
    match action k with
    | .ok (.err e) => .thrown (.err e)
    | other => other

/-! ## String-keyed attribute maps

Message and publish attributes (`Attributes` of the transport) are
string-keyed records; property read and property assignment on them are
modelled on association lists. -/

/-- Read a property of a string-keyed object (`obj[k]`): `none` when
absent. -/
def getAttr : List (String × String) → String → Option String
  | [], _ => none
  | (k', v') :: rest, k => if k' = k then some v' else getAttr rest k

/-- Assign a property of a string-keyed object (`obj[k] = v`): overwrite
an existing entry, otherwise add one. -/
def setAttr : List (String × String) → String → String → List (String × String)
  | [], k, v => [(k, v)]
  | (k', v') :: rest, k, v =>
    if k' = k then (k, v) :: rest else (k', v') :: setAttr rest k v

/-! ## Pub/Sub data model -/

/-- A delivered transport `Message`: identifier, payload text
(`message.data.toString()`), string-keyed `attributes`, and the
acknowledgement token `ackId`. -/
structure PSMessage where
  id : String
  data : String
  attributes : List (String × String)
  ackId : String
deriving DecidableEq, Repr

/-- A transport `Topic` handle, identified by its name. -/
structure TopicRef where
  name : String
deriving DecidableEq, Repr

/-- A transport `Subscription` handle: its name and its `topic` property,
which at runtime may be a string, a `Topic` object, or absent. -/
structure SubscriptionRef where
  name : String
  topic : Option (Sum String TopicRef)
deriving DecidableEq, Repr

/-! ## The delivery callback
(`setupSubscriptionWithHandlers`, `src/pubsub/base.ts` lines 187-253) -/

/-- The settled outcome of the user message handler's promise for one
delivered message: resolved, or rejected with a thrown value. -/
inductive HResult where
  | success
  | failure (errv : JsVal)
deriving DecidableEq, Repr

/-- Which error handler the `errorHandler ?? default` selection on
lines 192-194 picked: the caller-supplied one, or the default handler
that only logs. -/
inductive WhichHandler where
  | user
  | defaultLogging
deriving DecidableEq, Repr

/-- The observable effect of running the wrapped `message` callback on one
delivered message: how often `message.ack()` and `message.nack()` were
called, every `(handler, error, message)` invocation of the selected
error handler, and the value (if any) thrown out of the callback. -/
structure DeliveryEffects where
  acks : Nat
  nacks : Nat
  errorCalls : List (WhichHandler × JsErr × Option PSMessage)
  raised : Option JsVal
deriving DecidableEq, Repr

/-- The wrapped `message` callback installed by
`setupSubscriptionWithHandlers` (`src/pubsub/base.ts` lines 224-237):
`await messageHandler(message)`; on success `message.ack()`; on failure
`message.nack()`, then wrap the thrown value with
`createError('messageHandler Error:', err)` and pass it to the selected
error handler together with the message.  The `catch` block ends without
throwing, so nothing escapes the callback (`raised = none`). -/
def deliveryCallback (hasUserErrorHandler : Bool)
    (messageHandler : PSMessage → HResult) (m : PSMessage) : DeliveryEffects :=
  let wh := if hasUserErrorHandler then WhichHandler.user
            else WhichHandler.defaultLogging
  match messageHandler m with
  | .success => { acks := 1, nacks := 0, errorCalls := [], raised := none }
  | .failure errv =>
    { acks := 0
      nacks := 1
      errorCalls := [(wh, createError (.str "messageHandler Error:") (some errv), some m)]
      raised := none }

/-- The `jsonMessageHandler` closure built by `Subscriber.listenJson`
(`src/pubsub/index.ts` lines 163-189): parse the payload text as JSON
(the parse is the abstract transport-provided `JSON.parse`, which either
yields a value or throws a syntax error); on success call the user's JSON
handler; on a parse failure reject with
`createError('Failed to parse JSON from messageId <id>:', err)`.  The
`contentType` warning on lines 171-176 only logs and is not part of the
effect. -/
def jsonMessageHandler (parse : String → Except JsErr JsVal)
    (handler : JsVal → PSMessage → HResult) (m : PSMessage) : HResult :=
  match parse m.data with
  | .ok json => handler json m
  | .error perr =>
    .failure (.err (createError
      (.str ("Failed to parse JSON from messageId " ++ m.id ++ ":"))
      (some (.err perr))))

/-! ## The Subscriber lifecycle
(`Subscriber`, `src/pubsub/index.ts` lines 111-221) -/

/-- The mutable state of a `Subscriber` instance: the private
`#subscriberClosed` flag (line 112), initially `false`. -/
structure SubscriberState where
  subscriberClosed : Bool
deriving DecidableEq, Repr

/-- A fresh `Subscriber` (constructor, lines 119-121). -/
def initSubscriber : SubscriberState := { subscriberClosed := false }

/-- Transport operations a `Subscriber` method can perform on its
subscription, in the order issued. -/
inductive SubOp where
  | subExistsProbe
  | installHandlers
  | removeAllListeners
  | subClose
  | subDelete
deriving DecidableEq, Repr

/-- The result of running one `Subscriber` method: the error it throws
(by message text, `none` on success), the state afterwards, and the
transport operations performed, in order. -/
structure SubStepResult where
  error : Option String
  state : SubscriberState
  ops : List SubOp
deriving DecidableEq, Repr

/-- `Subscriber.listen` (`src/pubsub/index.ts` lines 129-150), with the
transport's answer to `subscription.exists()` supplied as `subExists`:
if `#subscriberClosed`, throw `Subscriber <name> is closed` before any
transport call; otherwise probe existence; if absent, throw
`Subscriber <name> does not exist`; otherwise install the wrapped
handlers (`setupSubscriptionWithHandlers`). -/
def subscriberListen (name : String) (subExists : Bool)
    (s : SubscriberState) : SubStepResult :=
  if s.subscriberClosed then
    { error := some ("Subscriber " ++ name ++ " is closed"), state := s, ops := [] }
  else if subExists then
    { error := none, state := s, ops := [.subExistsProbe, .installHandlers] }
  else
    { error := some ("Subscriber " ++ name ++ " does not exist")
      state := s
      ops := [.subExistsProbe] }

/-- `Subscriber.listenJson` (`src/pubsub/index.ts` lines 159-191) builds
the `jsonMessageHandler` closure (no transport effect) and then runs
`await this.listen(jsonMessageHandler, errorHandler)` (line 190), so its
lifecycle effect is exactly that of `listen`. -/
def subscriberListenJson (name : String) (subExists : Bool)
    (s : SubscriberState) : SubStepResult :=
  subscriberListen name subExists s

/-- `Subscriber.close` (`src/pubsub/index.ts` lines 197-201):
`removeAllListeners`, transport `close`, then set `#subscriberClosed`. -/
def subscriberClose (s : SubscriberState) : SubStepResult :=
  let _ := s
  { error := none
    state := { subscriberClosed := true }
    ops := [.removeAllListeners, .subClose] }

/-- `Subscriber.delete` (`src/pubsub/index.ts` lines 212-220): if not yet
closed, run `close()` first; then probe `subscription.exists()` and, if
it exists, transport `delete`. -/
def subscriberDelete (subExists : Bool) (s : SubscriberState) : SubStepResult :=
  let closeRes :=
    if s.subscriberClosed then { error := none, state := s, ops := [] }
    else subscriberClose s
  let delOps :=
    if subExists then [SubOp.subExistsProbe, SubOp.subDelete]
    else [SubOp.subExistsProbe]
  { error := none, state := closeRes.state, ops := closeRes.ops ++ delOps }

/-- An event in the life of a `Subscriber` instance: one public method
call, with the transport's existence answer where the method probes it. -/
inductive SubEvent where
  | listen (subExists : Bool)
  | listenJson (subExists : Bool)
  | close
  | deleteSub (subExists : Bool)
deriving DecidableEq, Repr

/-- Run one lifecycle event against a state. -/
def subscriberStep (name : String) (s : SubscriberState) :
    SubEvent → SubStepResult
  | .listen ex => subscriberListen name ex s
  | .listenJson ex => subscriberListenJson name ex s
  | .close => subscriberClose s
  | .deleteSub ex => subscriberDelete ex s

/-- Run a sequence of lifecycle events, threading the state. -/
def runSubscriber (name : String) (s : SubscriberState) :
    List SubEvent → SubscriberState
  | [] => s
  | e :: rest => runSubscriber name (subscriberStep name s e).state rest

/-- Whether an event is a completed `close()` or `delete()` call. -/
def SubEvent.isCloseOrDelete : SubEvent → Bool
  | .close => true
  | .deleteSub _ => true
  | _ => false

/-! ## The Publisher (`src/pubsub/index.ts` lines 46-102) -/

/-- Publish options (`TPublishOptions`, i.e. `MessageOptions` without
`data`/`json`): the `attributes` property, possibly absent.  Other
`MessageOptions` fields (`orderingKey`, …) pass through both publish
paths unread and are not modelled. -/
structure TPubOptions where
  attributes : Option (List (String × String))
deriving DecidableEq, Repr

/-- The `MessageOptions` record handed to the transport's
`topic.publishMessage`: the JSON payload and the attributes. -/
structure PSMessageOptions where
  json : Option JsVal
  attributes : Option (List (String × String))
deriving DecidableEq, Repr

/-- An observable event of a publish call: the transport-level
`topic.publishMessage` with the exact record it received, or a
`logger.info` line. -/
inductive PubEvent where
  | transportPublish (data : PSMessageOptions)
  | logInfo (s : String)
deriving DecidableEq, Repr

/-- Whether an event trace contains a `logger.info` line. -/
def containsLogInfo : List PubEvent → Bool
  | [] => false
  | .logInfo _ :: _ => true
  | _ :: rest => containsLogInfo rest

/-- The transport primitive `this.#topic.publishMessage(data)`: hands the
record to the broker, which assigns the message id `mid`. -/
def topicPublishMessage (mid : String) (data : PSMessageOptions) :
    String × List PubEvent :=
  (mid, [.transportPublish data])

/-- `Publisher.publishMessage` (`src/pubsub/index.ts` lines 90-101):
forward to `topic.publishMessage`, then log the message id, mentioning
the `contentType` attribute when it is set (and truthy). -/
def publisherPublishMessage (mid : String) (data : PSMessageOptions) :
    String × List PubEvent :=
  let (messageId, evs) := topicPublishMessage mid data
  let contentType :=
    match data.attributes with
    | some attrs => getAttr attrs "contentType"
    | none => none
  match contentType with
  | some ct =>
    if ct = "" then
      (messageId, evs ++ [.logInfo ("Published messageId " ++ messageId)])
    else
      (messageId, evs ++ [.logInfo ("Published messageId " ++ messageId ++
        " with contentType " ++ ct)])
  | none =>
    (messageId, evs ++ [.logInfo ("Published messageId " ++ messageId)])

/-- The result of a `publishJson` call: the returned message id, the
events in order, and the value of the caller's `options` variable after
the call.  `publishJson` assigns into the very object the caller passed
(`options.attributes = {}`, `options.attributes.contentType = ...`,
lines 65-77), so when the caller passed an object, `callerOptions` is
that object's mutated state; when the caller passed nothing, the
fresh object the method created is invisible to the caller
(`callerOptions = none`). -/
structure PublishJsonResult where
  messageId : String
  events : List PubEvent
  callerOptions : Option TPubOptions
deriving DecidableEq, Repr

/-- `Publisher.publishJson` (`src/pubsub/index.ts` lines 61-82): default
`options` to `{attributes: {}}` if absent; create `options.attributes` if
absent; force `options.attributes.contentType = 'application/json'`
(overwriting any caller value); build
`opt = { json: data, ...options }` and return
`this.#topic.publishMessage(opt)` — the transport primitive directly,
not the `Publisher.publishMessage` wrapper. -/
def publishJson (mid : String) (data : JsVal) (options : Option TPubOptions) :
    PublishJsonResult :=
  let opts : TPubOptions := options.getD { attributes := some [] }
  let attrs := opts.attributes.getD []
  let attrs := setAttr attrs "contentType" "application/json"
  let opts : TPubOptions := { attributes := some attrs }
  let opt : PSMessageOptions := { json := some data, attributes := opts.attributes }
  let (messageId, evs) := topicPublishMessage mid opt
  { messageId := messageId
    events := evs
    callerOptions := if options.isSome then some opts else none }

/-! ## Topic provisioning
(`PubSubService.createTopic`, `src/pubsub/index.ts` lines 234-254) -/

/-- The broker-side state `createTopic` interacts with: which topic names
exist. -/
structure PubSubEnv where
  topics : List String
deriving DecidableEq, Repr

/-- An observable event of a `createTopic` call: the `topic.exists()`
probe with its answer, or the transport's `client.createTopic`. -/
inductive TopicEvent where
  | existsProbe (name : String) (result : Bool)
  | clientCreateTopic (name : String)
deriving DecidableEq, Repr

/-- Whether a trace contains a transport `createTopic` call. -/
def containsCreateTopic : List TopicEvent → Bool
  | [] => false
  | .clientCreateTopic _ :: _ => true
  | _ :: rest => containsCreateTopic rest

/-- `PubSubService.createTopic` (`src/pubsub/index.ts` lines 234-254):
obtain a handle via `this.getTopic(topicName, ...)`; probe
`topic.exists()`; if it exists return the handle; otherwise
`client.createTopic` (which makes the name exist) and return the new
handle.  Returns the handle, the broker state afterwards, and the events
in order. -/
def createTopicOp (env : PubSubEnv) (topicName : String) :
    TopicRef × PubSubEnv × List TopicEvent :=
  let topic : TopicRef := { name := topicName }
  if topicName ∈ env.topics then
    (topic, env, [.existsProbe topicName true])
  else
    ({ name := topicName }, { topics := topicName :: env.topics },
      [.existsProbe topicName false, .clientCreateTopic topicName])

/-! ## The logger payload builder
(`getPubSubLoggerPayload`, `src/pubsub/base.ts` lines 55-95) -/

/-- An error as `getPubSubLoggerPayload` sees it: its `message` text, and,
exactly when it is a transport `StatusError`, the numeric status `code`,
the metadata blob (already in its JSON form, i.e. after
`JSON.parse(safeStringify(error.metadata.toJSON()))`), and the `details`
string. -/
structure GErr where
  message : String
  status : Option (Int × List (String × String) × String)
deriving DecidableEq, Repr

/-- The input of `getPubSubLoggerPayload`
(`IPubSubLoggerPayloadRequest`): every field optional; `topic` may at
runtime be a string or a `Topic` handle. -/
structure PayloadRequest where
  topic : Option (Sum String TopicRef) := none
  subscription : Option SubscriptionRef := none
  message : Option PSMessage := none
  messageId : Option String := none
  error : Option GErr := none

/-- The record built by `getPubSubLoggerPayload`
(`IPubSubLoggerPayload`): every field absent until assigned. -/
structure PubSubLoggerPayload where
  subscriptionName : Option String := none
  topicName : Option String := none
  messageId : Option String := none
  messageContentType : Option String := none
  messageAckId : Option String := none
  grpcErrorStatus : Option Int := none
  grpcErrorMetadata : Option (List (String × String)) := none
  grpcErrorDetails : Option String := none
deriving DecidableEq, Repr

/-- The topic name read from a subscription handle
(`typeof sub.topic === 'string' ? sub.topic : sub.topic?.name`,
`src/pubsub/base.ts` line 67). -/
def SubscriptionRef.topicNameOf (sub : SubscriptionRef) : Option String :=
  match sub.topic with
  | some (.inl s) => some s
  | some (.inr t) => some t.name
  | none => none

/-- `// Add subscription` (`src/pubsub/base.ts` lines 60-62): when a
subscription is supplied, assign `subscriptionName = sub.name`. -/
def payloadSubStage (input : PayloadRequest) (p : PubSubLoggerPayload) :
    PubSubLoggerPayload :=
  match input.subscription with
  | some sub => { p with subscriptionName := some sub.name }
  | none => p

/-- `// Add topic, giving priority to the topic from subscription`
(`src/pubsub/base.ts` lines 64-72): with a subscription present, assign
its (truthy) topic name and never read `input.topic`; otherwise assign
the name of a truthy `input.topic` (a string or a handle). -/
def payloadTopicStage (input : PayloadRequest) (p : PubSubLoggerPayload) :
    PubSubLoggerPayload :=
  match input.subscription with
  | some sub =>
    match sub.topicNameOf with
    | some tn => if tn = "" then p else { p with topicName := some tn }
    | none => p
  | none =>
    match input.topic with
    | some (.inl s) => if s = "" then p else { p with topicName := some s }
    | some (.inr t) => { p with topicName := some t.name }
    | none => p

/-- `// Add message ID` (`src/pubsub/base.ts` lines 74-82): with a
message present, assign its id, then its truthy `contentType` attribute,
then its truthy `ackId`; otherwise assign a truthy bare
`input.messageId`. -/
def payloadMessageStage (input : PayloadRequest) (p : PubSubLoggerPayload) :
    PubSubLoggerPayload :=
  match input.message with
  | some m =>
    let pa := { p with messageId := some m.id }
    let pb :=
      match getAttr m.attributes "contentType" with
      | some ct => if ct = "" then pa else { pa with messageContentType := some ct }
      | none => pa
    if m.ackId = "" then pb else { pb with messageAckId := some m.ackId }
  | none =>
    match input.messageId with
    | some mid => if mid = "" then p else { p with messageId := some mid }
    | none => p

/-- `// Add StatusError details` (`src/pubsub/base.ts` lines 85-92): when
the error is a transport `StatusError`, assign its code, metadata blob
and details; the error's `message` text is never read. -/
def payloadErrorStage (input : PayloadRequest) (p : PubSubLoggerPayload) :
    PubSubLoggerPayload :=
  match input.error with
  | some e =>
    match e.status with
    | some (code, metadata, details) =>
      { p with grpcErrorStatus := some code
               grpcErrorMetadata := some metadata
               grpcErrorDetails := some details }
    | none => p
  | none => p

/-- `getPubSubLoggerPayload` (`src/pubsub/base.ts` lines 55-95): starting
from the empty record, run the four assignment blocks in source order. -/
def getPubSubLoggerPayload (input : PayloadRequest) : PubSubLoggerPayload :=
  payloadErrorStage input
    (payloadMessageStage input (payloadTopicStage input (payloadSubStage input {})))

/-! ## Lemmas about the retry loop -/

/-- With `retryOnAllErrors` set, the `catch` block always continues. -/
theorem catchStep_allErrors (opt : RetryOptions)
    (h : opt.retryOnAllErrors = true) (err : JsVal) :
    catchStep opt err = .next := by
  unfold catchStep
  split
  · rfl
  · simp [h]

/-- The `catch` block never returns a value: it continues or re-raises. -/
theorem catchStep_ne_ret (opt : RetryOptions) (err v : JsVal) :
    catchStep opt err ≠ .ret v := by
  unfold catchStep
  split
  · simp
  split
  · simp
  split
  · simp
  · simp

/-- A value that is not an `Error` instance is not a `RetryError`. -/
theorem isRetryError_of_not_errorInstance (v : JsVal)
    (h : v.isErrorInstance = false) : v.isRetryError = false := by
  cases v <;> simp_all [JsVal.isErrorInstance, JsVal.isRetryError]

/-- A loop iteration only returns values that are not `Error` instances
(`if (result instanceof Error) throw result`). -/
theorem attemptStep_ret_isError_false (opt : RetryOptions)
    (r : ActionResult) (v : JsVal) (h : attemptStep opt r = .ret v) :
    v.isErrorInstance = false := by
  cases r with
  | thrown e => exact absurd h (catchStep_ne_ret opt e v)
  | ok result =>
    by_cases h1 : opt.shouldRetryOn result = true
    · simp [attemptStep, h1] at h
    · by_cases h2 : result.isErrorInstance = true
      · simp [attemptStep, h1, h2] at h
        exact absurd h (catchStep_ne_ret opt result v)
      · simp [attemptStep, h1, h2] at h
        split at h
        · exact absurd h (by simp)
        · injection h with h
          subst h
          simpa using h2

/-- An attempt that resolves with an `Error` value steps exactly like an
attempt that throws the same `Error`. -/
theorem attemptStep_ok_error_eq_thrown (opt : RetryOptions) (e : JsErr) :
    attemptStep opt (.ok (.err e)) = attemptStep opt (.thrown (.err e)) := by
  cases h : opt.shouldRetryOn (.err e) with
  | true => simp [attemptStep, catchStep, JsVal.isErrorInstance, h]
  | false => simp [attemptStep, catchStep, JsVal.isErrorInstance, h]

/-- Stepping on the throwified action coincides with stepping on the
original action at every attempt. -/
theorem attemptStep_throwify (opt : RetryOptions)
    (action : Nat → ActionResult) (k : Nat) :
    attemptStep opt (throwifyErrors action k) = attemptStep opt (action k) := by
  unfold throwifyErrors
  cases hac : action k with
  | thrown v => rfl
  | ok v =>
    cases v with
    | err e => exact (attemptStep_ok_error_eq_thrown opt e).symm
    | undef => rfl
    | str s => rfl
    | int n => rfl

/-- The whole loop is unchanged by throwifying the action. -/
theorem retryAux_throwify (action : Nat → ActionResult) (opt : RetryOptions) :
    ∀ fuel calls,
      retryAux (throwifyErrors action) opt calls fuel =
        retryAux action opt calls fuel := by
  intro fuel
  induction fuel with
  | zero => intro calls; rfl
  | succ n ih =>
    intro calls
    unfold retryAux
    rw [attemptStep_throwify opt action (calls + 1)]
    cases attemptStep opt (action (calls + 1)) with
    | next => exact ih (calls + 1)
    | ret v => rfl
    | raise v => rfl

/-- Whenever the loop returns a value, that value is not an `Error`
instance. -/
theorem retryAux_ret_isError_false (action : Nat → ActionResult)
    (opt : RetryOptions) :
    ∀ fuel calls v n, retryAux action opt calls fuel = (.ret v, n) →
      v.isErrorInstance = false := by
  intro fuel
  induction fuel with
  | zero =>
    intro calls v n h
    unfold retryAux at h
    cases h
    rfl
  | succ f ih =>
    intro calls v n h
    unfold retryAux at h
    cases hs : attemptStep opt (action (calls + 1)) with
    | next => rw [hs] at h; exact ih (calls + 1) v n h
    | ret w =>
      rw [hs] at h
      cases h
      exact attemptStep_ret_isError_false opt (action (calls + 1)) v hs
    | raise w => rw [hs] at h; cases h

/-- An action that throws at every attempt makes every iteration continue
(under `retryOnAllErrors`), so the loop consumes all its fuel and returns
`undefined`. -/
theorem retryAux_allThrown (action : Nat → ActionResult) (opt : RetryOptions)
    (h1 : opt.retryOnAllErrors = true)
    (h2 : ∀ k, (action k).isThrown = true) :
    ∀ fuel calls, retryAux action opt calls fuel = (.ret .undef, calls + fuel) := by
  intro fuel
  induction fuel with
  | zero => intro calls; rfl
  | succ n ih =>
    intro calls
    have ht := h2 (calls + 1)
    cases hac : action (calls + 1) with
    | ok v => rw [hac] at ht; simp [ActionResult.isThrown] at ht
    | thrown v =>
      unfold retryAux
      rw [hac]
      show (match attemptStep opt (.thrown v) with
        | .next => retryAux action opt (calls + 1) n
        | .ret v => (.ret v, calls + 1)
        | .raise v => (.raise v, calls + 1)) = _
      rw [show attemptStep opt (.thrown v) = .next from
        catchStep_allErrors opt h1 v]
      rw [ih (calls + 1), show calls + 1 + n = calls + (n + 1) from by omega]

/-! ## Concrete fixtures used to exercise the logger payload builder -/

/-- A transport `StatusError` with code 14 (UNAVAILABLE). -/
def sampleStatusErr : GErr :=
  { message := "secret", status := some (14, [("k", "v")], "unavailable") }

/-- The same `StatusError` with a different raw message text. -/
def sampleStatusErrOther : GErr :=
  { message := "other", status := some (14, [("k", "v")], "unavailable") }

/-- A subscription handle bound to topic `t1`. -/
def sampleSubRef : SubscriptionRef :=
  { name := "s1", topic := some (Sum.inr { name := "t1" }) }

/-- A delivered message with a JSON content type and an ack token. -/
def sampleMessage : PSMessage :=
  { id := "m1", data := "x",
    attributes := [("contentType", "application/json")], ackId := "a1" }

/-- A payload request carrying a subscription, a conflicting separate
topic, a message and a `StatusError`. -/
def samplePayloadReq : PayloadRequest :=
  { topic := some (Sum.inl "tX"), subscription := some sampleSubRef,
    message := some sampleMessage, messageId := none,
    error := some sampleStatusErr }

/-- A payload request carrying only a bare message id. -/
def sampleBareReq : PayloadRequest := { messageId := some "m9" }

/-! ## Lemmas about the Subscriber lifecycle -/

/-- No lifecycle event ever clears the `#subscriberClosed` flag. -/
theorem subscriberStep_preserves_closed (name : String) (s : SubscriberState)
    (e : SubEvent) (h : s.subscriberClosed = true) :
    (subscriberStep name s e).state.subscriberClosed = true := by
  cases e <;>
    simp [subscriberStep, subscriberListen, subscriberListenJson,
      subscriberClose, subscriberDelete, h]

/-- Once closed, a subscriber stays closed through any further event
sequence. -/
theorem runSubscriber_preserves_closed (name : String) :
    ∀ evs (s : SubscriberState), s.subscriberClosed = true →
      (runSubscriber name s evs).subscriberClosed = true := by
  intro evs
  induction evs with
  | nil => intro s h; exact h
  | cons e rest ih =>
    intro s h
    exact ih _ (subscriberStep_preserves_closed name s e h)

/-- A completed `close()` or `delete()` leaves the subscriber closed. -/
theorem subscriberStep_closes (name : String) (s : SubscriberState)
    (e : SubEvent) (h : e.isCloseOrDelete = true) :
    (subscriberStep name s e).state.subscriberClosed = true := by
  cases e with
  | listen ex => simp [SubEvent.isCloseOrDelete] at h
  | listenJson ex => simp [SubEvent.isCloseOrDelete] at h
  | close => rfl
  | deleteSub ex =>
    cases hs : s.subscriberClosed <;>
      simp [subscriberStep, subscriberDelete, subscriberClose, hs]

/-- Any event sequence containing a `close()` or `delete()` ends in a
closed subscriber, from any starting state. -/
theorem runSubscriber_closed_of_mem (name : String) :
    ∀ evs (s : SubscriberState),
      (∃ e ∈ evs, e.isCloseOrDelete = true) →
      (runSubscriber name s evs).subscriberClosed = true := by
  intro evs
  induction evs with
  | nil => intro s h; exact absurd h (by simp)
  | cons e rest ih =>
    intro s h
    obtain ⟨e', he', hcd⟩ := h
    rcases List.mem_cons.mp he' with rfl | hmem
    · exact runSubscriber_preserves_closed name rest _
        (subscriberStep_closes name s e' hcd)
    · exact ih _ ⟨e', hmem, hcd⟩

/-! ## Claims about the retry combinator -/

/-- C1: for every retry policy with `maxRetry = n` and
`retryOnAllErrors = true`, running `retry` on an action that raises on
every invocation invokes the action exactly `n` times and then returns
`undefined`; it does not raise any error to the caller. -/
theorem retry_always_raising_returns_undefined (action : Nat → ActionResult)
    (opt : RetryOptions) (h1 : opt.retryOnAllErrors = true)
    (h2 : ∀ k, (action k).isThrown = true) :
    retry action opt = (.ret .undef, opt.maxRetry) := by
  unfold retry
  rw [retryAux_allThrown action opt h1 h2 opt.maxRetry 0]
  rw [Nat.zero_add]

/-- Witness for C1: an action that always throws, under the default policy
(`maxRetry = 3`, `retryOnAllErrors = true`), is invoked 3 times and the
call returns `undefined`. -/
theorem retry_always_raising_returns_undefined_witness :
    retry (fun _ => .thrown (.err (.plainError "boom")))
      { maxRetry := 3, retryOnUndefined := true, retryOnAllErrors := true,
        shouldRetry := none } = (.ret .undef, 3) :=
  retry_always_raising_returns_undefined _ _ rfl (fun _ => rfl)

/-- C5: with `retryOnAllErrors = false` and no `shouldRetry`, an action
whose first invocation raises a value that is not a `RetryError` is
invoked exactly once and the very same value is re-raised to the
caller. -/
theorem retry_nonretryable_error_raises_immediately
    (action : Nat → ActionResult) (opt : RetryOptions) (v : JsVal)
    (h1 : opt.shouldRetry = none) (h2 : opt.retryOnAllErrors = false)
    (h3 : 1 ≤ opt.maxRetry) (h4 : action 1 = .thrown v)
    (h5 : v.isRetryError = false) :
    retry action opt = (.raise v, 1) := by
  unfold retry
  obtain ⟨f, hf⟩ : ∃ f, opt.maxRetry = f + 1 := ⟨opt.maxRetry - 1, by omega⟩
  rw [hf]
  unfold retryAux
  rw [show (0 : Nat) + 1 = 1 from rfl, h4]
  simp [attemptStep, catchStep, RetryOptions.shouldRetryOn, h1, h2, h5]

/-- Witness for C5: a plain (non-`RetryError`) error thrown on the first
attempt under `retryOnAllErrors = false` with no predicate aborts after
one invocation and re-raises that error. -/
theorem retry_nonretryable_error_raises_immediately_witness :
    retry (fun _ => .thrown (.err (.plainError "fatal")))
      { maxRetry := 3, retryOnUndefined := true, retryOnAllErrors := false,
        shouldRetry := none } = (.raise (.err (.plainError "fatal")), 1) :=
  retry_nonretryable_error_raises_immediately _ _ _ rfl rfl (by decide) rfl rfl

/-- C6: `retry` treats an action that resolves to an `Error` value exactly
as if the action had raised it — replacing every resolved-`Error` attempt
by a raising attempt leaves the whole run unchanged, and the two step the
same way at every attempt — so an `Error` instance is never returned as
the success result; under `retryOnAllErrors = true` a resolved `Error`
triggers another attempt, and under `retryOnAllErrors = false` with no
`shouldRetry` a resolved non-`RetryError` value on the first attempt is
raised to the caller after exactly one invocation. -/
theorem retry_error_result_treated_as_thrown (action : Nat → ActionResult)
    (opt : RetryOptions) (e : JsErr) :
    retry (throwifyErrors action) opt = retry action opt ∧
    attemptStep opt (.ok (.err e)) = attemptStep opt (.thrown (.err e)) ∧
    (retry action opt).1.returnsErrorValue = false ∧
    (opt.retryOnAllErrors = true → attemptStep opt (.ok (.err e)) = .next) ∧
    (opt.retryOnAllErrors = false → opt.shouldRetry = none →
      (JsVal.err e).isRetryError = false → 1 ≤ opt.maxRetry →
      action 1 = .ok (.err e) → retry action opt = (.raise (.err e), 1)) := by
  refine ⟨retryAux_throwify action opt opt.maxRetry 0,
    attemptStep_ok_error_eq_thrown opt e, ?_, ?_, ?_⟩
  · cases hr : retry action opt with
    | mk out n =>
      cases out with
      | ret v =>
        unfold retry at hr
        have := retryAux_ret_isError_false action opt opt.maxRetry 0 v n hr
        simp [RetryOutcome.returnsErrorValue, this]
      | raise v => simp [RetryOutcome.returnsErrorValue]
  · intro h1
    rw [attemptStep_ok_error_eq_thrown opt e]
    exact catchStep_allErrors opt h1 (.err e)
  · intro h1 h2 h3 h4 h5
    unfold retry
    obtain ⟨f, hf⟩ : ∃ f, opt.maxRetry = f + 1 := ⟨opt.maxRetry - 1, by omega⟩
    rw [hf]
    unfold retryAux
    rw [show (0 : Nat) + 1 = 1 from rfl, h5]
    rw [attemptStep_ok_error_eq_thrown opt e]
    simp [attemptStep, catchStep, RetryOptions.shouldRetryOn, h2, h1] at h3 ⊢
    simp [h3]

/-- Witness for C6: an action resolving to a plain `Error` on the first
attempt steps exactly like one throwing it; under
`retryOnAllErrors = false` with no predicate the error value is raised to
the caller after one invocation. -/
theorem retry_error_result_treated_as_thrown_witness :
    retry (throwifyErrors (fun _ => .ok (.err (.plainError "oops"))))
        { maxRetry := 3, retryOnUndefined := true, retryOnAllErrors := false,
          shouldRetry := none } =
      retry (fun _ => .ok (.err (.plainError "oops")))
        { maxRetry := 3, retryOnUndefined := true, retryOnAllErrors := false,
          shouldRetry := none } ∧
    retry (fun _ => .ok (.err (.plainError "oops")))
        { maxRetry := 3, retryOnUndefined := true, retryOnAllErrors := false,
          shouldRetry := none } = (.raise (.err (.plainError "oops")), 1) := by
  obtain ⟨w1, w2, w3, w4, w5⟩ := retry_error_result_treated_as_thrown
    (fun _ => .ok (.err (.plainError "oops")))
    { maxRetry := 3, retryOnUndefined := true, retryOnAllErrors := false,
      shouldRetry := none } (.plainError "oops")
  exact ⟨w1, w5 rfl rfl rfl (by decide) rfl⟩

/-- C10: in the `catch` path, `shouldRetry` is skipped for a raised value
that is not an `Error` instance — the `catch` decision is the same as
with no predicate at all — and with `retryOnAllErrors = false` such a
value raised on the first attempt propagates to the caller after one
invocation, even when the (arbitrary, possibly always-true) predicate is
supplied. -/
theorem retry_nonError_thrown_skips_shouldRetry (action : Nat → ActionResult)
    (opt : RetryOptions) (v : JsVal)
    (h1 : v.isErrorInstance = false) (h2 : opt.retryOnAllErrors = false)
    (h3 : 1 ≤ opt.maxRetry) (h4 : action 1 = .thrown v) :
    catchStep opt v = catchStep { opt with shouldRetry := none } v ∧
    retry action opt = (.raise v, 1) := by
  have h5 := isRetryError_of_not_errorInstance v h1
  constructor
  · simp [catchStep, h1, h2, h5, RetryOptions.shouldRetryOn]
  · unfold retry
    obtain ⟨f, hf⟩ : ∃ f, opt.maxRetry = f + 1 := ⟨opt.maxRetry - 1, by omega⟩
    rw [hf]
    unfold retryAux
    rw [show (0 : Nat) + 1 = 1 from rfl, h4]
    simp [attemptStep, catchStep, h1, h2, h5]

/-- Witness for C10: a thrown string under `retryOnAllErrors = false` and
an always-true `shouldRetry` predicate is re-raised after a single
invocation — the predicate is never consulted for the non-`Error`
value. -/
theorem retry_nonError_thrown_skips_shouldRetry_witness :
    catchStep
        { maxRetry := 3, retryOnUndefined := true, retryOnAllErrors := false,
          shouldRetry := some (fun _ => true) } (.str "boom") =
      catchStep
        { maxRetry := 3, retryOnUndefined := true, retryOnAllErrors := false,
          shouldRetry := none } (.str "boom") ∧
    retry (fun _ => .thrown (.str "boom"))
        { maxRetry := 3, retryOnUndefined := true, retryOnAllErrors := false,
          shouldRetry := some (fun _ => true) } = (.raise (.str "boom"), 1) :=
  retry_nonError_thrown_skips_shouldRetry _ _ _ rfl rfl (by decide) rfl

/-! ## Claims about the delivery callback and the Subscriber -/

/-- C2: for every delivered message whose handler raises (including a
JSON-parse failure on the `listenJson` path), the wrapped delivery
callback nacks exactly once, invokes the selected error handler (the
default logging one when no user handler was supplied) exactly once with
the `createError`-wrapped error and the non-null message, never acks and
never throws out of the callback; on a handler that succeeds it acks
exactly once and never nacks. -/
theorem deliveryCallback_ack_nack_discipline
    (hasUEH : Bool) (handler : PSMessage → HResult) (m : PSMessage)
    (errv : JsVal) (parse : String → Except JsErr JsVal)
    (uh : JsVal → PSMessage → HResult) (perr : JsErr) :
    (handler m = .failure errv →
      deliveryCallback hasUEH handler m =
        { acks := 0, nacks := 1,
          errorCalls := [(if hasUEH then .user else .defaultLogging,
            createError (.str "messageHandler Error:") (some errv), some m)],
          raised := none }) ∧
    (handler m = .success →
      deliveryCallback hasUEH handler m =
        { acks := 1, nacks := 0, errorCalls := [], raised := none }) ∧
    (parse m.data = .error perr →
      deliveryCallback hasUEH (jsonMessageHandler parse uh) m =
        { acks := 0, nacks := 1,
          errorCalls := [(if hasUEH then .user else .defaultLogging,
            createError (.str "messageHandler Error:")
              (some (.err (createError
                (.str ("Failed to parse JSON from messageId " ++ m.id ++ ":"))
                (some (.err perr))))), some m)],
          raised := none }) := by
  refine ⟨?_, ?_, ?_⟩ <;> intro h <;>
    simp [deliveryCallback, jsonMessageHandler, h]

/-- Witness for C2: a handler that throws the string `boom` on a concrete
message produces one nack, zero acks, one default-handler invocation with
the wrapped error and the message, and nothing thrown; the same handler
succeeding produces one ack; a failing JSON parse on the `listenJson`
path produces the same nack discipline with the parse error wrapped
twice. -/
theorem deliveryCallback_ack_nack_discipline_witness :
    (deliveryCallback false (fun _ => HResult.failure (.str "boom"))
        { id := "m1", data := "x", attributes := [], ackId := "a1" } =
      { acks := 0, nacks := 1,
        errorCalls := [(.defaultLogging,
          createError (.str "messageHandler Error:") (some (.str "boom")),
          some { id := "m1", data := "x", attributes := [], ackId := "a1" })],
        raised := none }) ∧
    (deliveryCallback false (fun _ => HResult.success)
        { id := "m1", data := "x", attributes := [], ackId := "a1" } =
      { acks := 1, nacks := 0, errorCalls := [], raised := none }) ∧
    (deliveryCallback false
        (jsonMessageHandler (fun _ => .error (.plainError "bad json"))
          (fun _ _ => HResult.success))
        { id := "m1", data := "x", attributes := [], ackId := "a1" } =
      { acks := 0, nacks := 1,
        errorCalls := [(.defaultLogging,
          createError (.str "messageHandler Error:")
            (some (.err (createError
              (.str ("Failed to parse JSON from messageId " ++ "m1" ++ ":"))
              (some (.err (.plainError "bad json")))))),
          some { id := "m1", data := "x", attributes := [], ackId := "a1" })],
        raised := none }) := by
  obtain ⟨h1, h2, h3⟩ := deliveryCallback_ack_nack_discipline false
    (fun _ => HResult.failure (.str "boom"))
    { id := "m1", data := "x", attributes := [], ackId := "a1" }
    (.str "boom") (fun _ => .error (.plainError "bad json"))
    (fun _ _ => HResult.success) (.plainError "bad json")
  refine ⟨h1 rfl, ?_, h3 rfl⟩
  obtain ⟨_, h2', _⟩ := deliveryCallback_ack_nack_discipline false
    (fun _ => HResult.success)
    { id := "m1", data := "x", attributes := [], ackId := "a1" }
    (.str "boom") (fun _ => .error (.plainError "bad json"))
    (fun _ _ => HResult.success) (.plainError "bad json")
  exact h2' rfl

/-- C3: after any reachable lifecycle sequence of a fresh `Subscriber`
that contains a completed `close()` or `delete()`, the closed flag is
set, and every subsequent `listen()` (and `listenJson()`) throws the
`is closed` error with no transport operation performed — in particular
no existence probe and no handler installation — and the state
unchanged. -/
theorem subscriber_closed_rejects_listen (name : String)
    (evs : List SubEvent) (ex : Bool)
    (h : ∃ e ∈ evs, e.isCloseOrDelete = true) :
    (runSubscriber name initSubscriber evs).subscriberClosed = true ∧
    subscriberListen name ex (runSubscriber name initSubscriber evs) =
      { error := some ("Subscriber " ++ name ++ " is closed"),
        state := runSubscriber name initSubscriber evs, ops := [] } ∧
    subscriberListenJson name ex (runSubscriber name initSubscriber evs) =
      { error := some ("Subscriber " ++ name ++ " is closed"),
        state := runSubscriber name initSubscriber evs, ops := [] } := by
  have hc := runSubscriber_closed_of_mem name evs initSubscriber h
  refine ⟨hc, ?_, ?_⟩ <;>
    simp [subscriberListen, subscriberListenJson, hc]

/-- Witness for C3: after the sequence `[listen (exists), close]`, a
further `listen` on subscription `s1` is rejected with the `is closed`
error, performing no transport operation. -/
theorem subscriber_closed_rejects_listen_witness :
    (runSubscriber "s1" initSubscriber [.listen true, .close]).subscriberClosed
        = true ∧
    subscriberListen "s1" true
        (runSubscriber "s1" initSubscriber [.listen true, .close]) =
      { error := some ("Subscriber " ++ "s1" ++ " is closed"),
        state := runSubscriber "s1" initSubscriber [.listen true, .close],
        ops := [] } ∧
    subscriberListenJson "s1" true
        (runSubscriber "s1" initSubscriber [.listen true, .close]) =
      { error := some ("Subscriber " ++ "s1" ++ " is closed"),
        state := runSubscriber "s1" initSubscriber [.listen true, .close],
        ops := [] } :=
  subscriber_closed_rejects_listen "s1" [.listen true, .close] true
    ⟨.close, by simp, rfl⟩

/-! ## Claims about the Publisher and topic provisioning -/

/-- Assigning a key makes a later read of that key see the assigned
value. -/
theorem getAttr_setAttr_same (l : List (String × String)) (k v : String) :
    getAttr (setAttr l k v) k = some v := by
  induction l with
  | nil => simp [setAttr, getAttr]
  | cons p rest ih =>
    obtain ⟨k', v'⟩ := p
    by_cases h : k' = k
    · simp [setAttr, getAttr, h]
    · simp [setAttr, getAttr, h, ih]

/-- Assigning a key leaves every other key unchanged. -/
theorem getAttr_setAttr_other (l : List (String × String)) (k v k' : String)
    (h : k' ≠ k) : getAttr (setAttr l k v) k' = getAttr l k' := by
  induction l with
  | nil => simp [setAttr, getAttr, Ne.symm h]
  | cons p rest ih =>
    obtain ⟨k0, v0⟩ := p
    by_cases h0 : k0 = k
    · subst h0
      simp [setAttr, getAttr, Ne.symm h]
    · by_cases h1 : k0 = k'
      · simp [setAttr, getAttr, h0, h1, h]
      · simp [setAttr, getAttr, h0, h1, ih]

/-- Counterexample for C4: on the concrete call
`publishJson "m1" 1 none`, the event trace is a single direct transport
publish with no `logger.info` line — `publishJson` hands the record to
`topic.publishMessage` and never runs `Publisher.publishMessage`, whose
trace on the same record does contain the log line the claim requires. -/
theorem publishJson_no_publishMessage_logging_counterexample :
    containsLogInfo (publishJson "m1" (.int 1) none).events = false ∧
    containsLogInfo (publisherPublishMessage "m1"
      { json := some (.int 1),
        attributes := some [("contentType", "application/json")] }).2 = true := by
  constructor
  · rfl
  · rfl

/-- C4 (amended): for every input value and every options argument
(including attributes that already carry a `contentType` entry),
`publishJson` force-sets the `contentType` attribute to
`application/json` and hands the message directly to the transport's
`topic.publishMessage` — the trace is exactly one transport publish event
carrying the marker attribute, the broker-assigned id is returned, and no
`Publisher.publishMessage` logging takes place. -/
theorem publishJson_forces_contentType (mid : String) (data : JsVal)
    (options : Option TPubOptions) :
    ∃ attrs,
      (publishJson mid data options).events =
        [.transportPublish { json := some data, attributes := some attrs }] ∧
      getAttr attrs "contentType" = some "application/json" ∧
      (publishJson mid data options).messageId = mid ∧
      containsLogInfo (publishJson mid data options).events = false := by
  refine ⟨setAttr ((options.getD { attributes := some [] }).attributes.getD [])
    "contentType" "application/json", ?_, ?_, ?_, ?_⟩
  · rfl
  · exact getAttr_setAttr_same _ _ _
  · rfl
  · simp [publishJson, topicPublishMessage, containsLogInfo]

/-- C9: `publishJson` mutates the caller-supplied options in place — for
every call where the caller passes an options object `o`, the caller's
object afterwards is exactly `o` with an attributes object (created if
absent) whose `contentType` entry has been assigned
`application/json`, every other attribute entry untouched. -/
theorem publishJson_mutates_caller_options (mid : String) (data : JsVal)
    (o : TPubOptions) :
    (publishJson mid data (some o)).callerOptions =
      some { attributes := some (setAttr (o.attributes.getD [])
        "contentType" "application/json") } ∧
    getAttr (setAttr (o.attributes.getD []) "contentType" "application/json")
        "contentType" = some "application/json" ∧
    ∀ k, k ≠ "contentType" →
      getAttr (setAttr (o.attributes.getD []) "contentType" "application/json") k
        = getAttr (o.attributes.getD []) k := by
  refine ⟨rfl, getAttr_setAttr_same _ _ _, fun k hk => getAttr_setAttr_other _ _ _ _ hk⟩

/-- Witness for C9: passing options with a conflicting
`contentType: text/plain` and one unrelated attribute, the caller's
object after the call carries `contentType: application/json` and the
unrelated attribute untouched. -/
theorem publishJson_mutates_caller_options_witness :
    (publishJson "m1" (.int 1)
        (some { attributes := some [("contentType", "text/plain"), ("k", "v")] })).callerOptions =
      some { attributes := some (setAttr
        ((some [("contentType", "text/plain"), ("k", "v")] : Option (List (String × String))).getD [])
        "contentType" "application/json") } ∧
    getAttr (setAttr
        ((some [("contentType", "text/plain"), ("k", "v")] : Option (List (String × String))).getD [])
        "contentType" "application/json") "contentType" = some "application/json" ∧
    getAttr (setAttr
        ((some [("contentType", "text/plain"), ("k", "v")] : Option (List (String × String))).getD [])
        "contentType" "application/json") "k" = some "v" :=
  have h := publishJson_mutates_caller_options "m1" (.int 1)
    { attributes := some [("contentType", "text/plain"), ("k", "v")] }
  ⟨h.1, h.2.1, by
    have := h.2.2 "k" (by decide)
    rw [this]
    rfl⟩

/-- C7: calling `createTopic` twice with the same name yields handles
referring to the same channel; on the second call the existence probe
succeeds, the transport's create operation is not invoked, and the broker
state is unchanged. -/
theorem createTopic_second_call_no_create (env : PubSubEnv) (name : String) :
    (createTopicOp (createTopicOp env name).2.1 name).1 =
      (createTopicOp env name).1 ∧
    (createTopicOp (createTopicOp env name).2.1 name).2.1 =
      (createTopicOp env name).2.1 ∧
    (createTopicOp (createTopicOp env name).2.1 name).2.2 =
      [.existsProbe name true] ∧
    containsCreateTopic (createTopicOp (createTopicOp env name).2.1 name).2.2
      = false := by
  by_cases h : name ∈ env.topics <;>
    simp [createTopicOp, h, containsCreateTopic]

/-! ## Lemmas about the logger payload stages -/

/-- The subscription block only touches `subscriptionName`. -/
theorem payloadSubStage_preserves (input : PayloadRequest)
    (p : PubSubLoggerPayload) :
    (payloadSubStage input p).topicName = p.topicName ∧
    (payloadSubStage input p).messageId = p.messageId ∧
    (payloadSubStage input p).messageContentType = p.messageContentType ∧
    (payloadSubStage input p).messageAckId = p.messageAckId ∧
    (payloadSubStage input p).grpcErrorStatus = p.grpcErrorStatus ∧
    (payloadSubStage input p).grpcErrorMetadata = p.grpcErrorMetadata ∧
    (payloadSubStage input p).grpcErrorDetails = p.grpcErrorDetails := by
  cases h : input.subscription <;> simp [payloadSubStage, h]

/-- The topic block only touches `topicName`. -/
theorem payloadTopicStage_preserves (input : PayloadRequest)
    (p : PubSubLoggerPayload) :
    (payloadTopicStage input p).subscriptionName = p.subscriptionName ∧
    (payloadTopicStage input p).messageId = p.messageId ∧
    (payloadTopicStage input p).messageContentType = p.messageContentType ∧
    (payloadTopicStage input p).messageAckId = p.messageAckId ∧
    (payloadTopicStage input p).grpcErrorStatus = p.grpcErrorStatus ∧
    (payloadTopicStage input p).grpcErrorMetadata = p.grpcErrorMetadata ∧
    (payloadTopicStage input p).grpcErrorDetails = p.grpcErrorDetails := by
  cases hs : input.subscription with
  | some sub =>
    cases ht : sub.topicNameOf with
    | some tn =>
      by_cases he : tn = "" <;> simp [payloadTopicStage, hs, ht, he]
    | none => simp [payloadTopicStage, hs, ht]
  | none =>
    cases ht : input.topic with
    | some t =>
      cases t with
      | inl s => by_cases he : s = "" <;> simp [payloadTopicStage, hs, ht, he]
      | inr tr => simp [payloadTopicStage, hs, ht]
    | none => simp [payloadTopicStage, hs, ht]

/-- The message block only touches the three message fields. -/
theorem payloadMessageStage_preserves (input : PayloadRequest)
    (p : PubSubLoggerPayload) :
    (payloadMessageStage input p).subscriptionName = p.subscriptionName ∧
    (payloadMessageStage input p).topicName = p.topicName ∧
    (payloadMessageStage input p).grpcErrorStatus = p.grpcErrorStatus ∧
    (payloadMessageStage input p).grpcErrorMetadata = p.grpcErrorMetadata ∧
    (payloadMessageStage input p).grpcErrorDetails = p.grpcErrorDetails := by
  cases hm : input.message with
  | some m =>
    cases hc : getAttr m.attributes "contentType" with
    | some ct =>
      by_cases he : ct = "" <;> by_cases ha : m.ackId = "" <;>
        simp [payloadMessageStage, hm, hc, he, ha]
    | none =>
      by_cases ha : m.ackId = "" <;> simp [payloadMessageStage, hm, hc, ha]
  | none =>
    cases hid : input.messageId with
    | some mid => by_cases he : mid = "" <;> simp [payloadMessageStage, hm, hid, he]
    | none => simp [payloadMessageStage, hm, hid]

/-- The error block only touches the three grpc fields. -/
theorem payloadErrorStage_preserves (input : PayloadRequest)
    (p : PubSubLoggerPayload) :
    (payloadErrorStage input p).subscriptionName = p.subscriptionName ∧
    (payloadErrorStage input p).topicName = p.topicName ∧
    (payloadErrorStage input p).messageId = p.messageId ∧
    (payloadErrorStage input p).messageContentType = p.messageContentType ∧
    (payloadErrorStage input p).messageAckId = p.messageAckId := by
  cases he : input.error with
  | some e =>
    cases hs : e.status with
    | some st =>
      obtain ⟨c, md, d⟩ := st
      simp [payloadErrorStage, he, hs]
    | none => simp [payloadErrorStage, he, hs]
  | none => simp [payloadErrorStage, he]

/-- The message block's effect on `messageId`, `messageContentType` and
`messageAckId` when a message is supplied. -/
theorem payloadMessageStage_of_message (input : PayloadRequest)
    (p : PubSubLoggerPayload) (m : PSMessage) (hm : input.message = some m) :
    (payloadMessageStage input p).messageId = some m.id ∧
    (payloadMessageStage input p).messageContentType =
      (match getAttr m.attributes "contentType" with
       | some ct => if ct = "" then p.messageContentType else some ct
       | none => p.messageContentType) ∧
    (payloadMessageStage input p).messageAckId =
      (if m.ackId = "" then p.messageAckId else some m.ackId) := by
  cases hc : getAttr m.attributes "contentType" with
  | some ct =>
    by_cases he : ct = "" <;> by_cases ha : m.ackId = "" <;>
      simp [payloadMessageStage, hm, hc, he, ha]
  | none =>
    by_cases ha : m.ackId = "" <;> simp [payloadMessageStage, hm, hc, ha]

/-- With a subscription present, the topic block never reads
`input.topic`. -/
theorem payloadTopicStage_topic_irrelevant (input : PayloadRequest)
    (sub : SubscriptionRef) (hsub : input.subscription = some sub)
    (t : Option (Sum String TopicRef)) (p : PubSubLoggerPayload) :
    payloadTopicStage { input with topic := t } p = payloadTopicStage input p := by
  simp [payloadTopicStage, hsub]

/-- C8: the logger payload takes the channel name from the subscription
when one is supplied (ignoring a separately supplied topic); carries the
message id together with the message's truthy content-type attribute and
ack token (or a truthy bare message id); carries the numeric status code,
metadata blob and detail string exactly when the error is a transport
`StatusError`; and is independent of the error's raw message text. -/
theorem getPubSubLoggerPayload_spec (input : PayloadRequest)
    (sub : SubscriptionRef) (m : PSMessage) (mid : String)
    (e : GErr) (c : Int) (md : List (String × String)) (d : String)
    (e1 e2 : GErr) :
    (input.subscription = some sub →
      (getPubSubLoggerPayload input).subscriptionName = some sub.name ∧
      (getPubSubLoggerPayload input).topicName =
        (match sub.topicNameOf with
         | some tn => if tn = "" then none else some tn
         | none => none) ∧
      (∀ t, getPubSubLoggerPayload { input with topic := t } =
        getPubSubLoggerPayload input)) ∧
    (input.message = some m →
      (getPubSubLoggerPayload input).messageId = some m.id ∧
      (getPubSubLoggerPayload input).messageContentType =
        (match getAttr m.attributes "contentType" with
         | some ct => if ct = "" then none else some ct
         | none => none) ∧
      (getPubSubLoggerPayload input).messageAckId =
        (if m.ackId = "" then none else some m.ackId)) ∧
    (input.message = none → input.messageId = some mid → mid ≠ "" →
      (getPubSubLoggerPayload input).messageId = some mid) ∧
    (input.error = some e → e.status = some (c, md, d) →
      (getPubSubLoggerPayload input).grpcErrorStatus = some c ∧
      (getPubSubLoggerPayload input).grpcErrorMetadata = some md ∧
      (getPubSubLoggerPayload input).grpcErrorDetails = some d) ∧
    (input.error = none ∨ (input.error = some e ∧ e.status = none) →
      (getPubSubLoggerPayload input).grpcErrorStatus = none ∧
      (getPubSubLoggerPayload input).grpcErrorMetadata = none ∧
      (getPubSubLoggerPayload input).grpcErrorDetails = none) ∧
    (e1.status = e2.status →
      getPubSubLoggerPayload { input with error := some e1 } =
        getPubSubLoggerPayload { input with error := some e2 }) := by
  obtain ⟨hE1, hE2, hE3, hE4, hE5⟩ := payloadErrorStage_preserves input
    (payloadMessageStage input (payloadTopicStage input (payloadSubStage input {})))
  obtain ⟨hM1, hM2, hMg1, hMg2, hMg3⟩ := payloadMessageStage_preserves input
    (payloadTopicStage input (payloadSubStage input {}))
  obtain ⟨hT1, hT2, hT3, hT4, hTg1, hTg2, hTg3⟩ := payloadTopicStage_preserves input
    (payloadSubStage input {})
  obtain ⟨hS1, hS2, hS3, hS4, hSg1, hSg2, hSg3⟩ := payloadSubStage_preserves input
    (PubSubLoggerPayload.mk none none none none none none none none)
  refine ⟨?_, ?_, ?_, ?_, ?_, ?_⟩
  · intro hsub
    refine ⟨?_, ?_, ?_⟩
    · show (payloadErrorStage input _).subscriptionName = some sub.name
      rw [hE1, hM1, hT1]
      simp [payloadSubStage, hsub]
    · show (payloadErrorStage input _).topicName = _
      rw [hE2, hM2]
      have hp1 : (payloadSubStage input {}).topicName = none := hS1
      cases ht : sub.topicNameOf with
      | some tn =>
        by_cases he : tn = "" <;>
          simp [payloadTopicStage, hsub, ht, he, hp1]
      | none => simp [payloadTopicStage, hsub, ht, hp1]
    · intro t
      show payloadErrorStage { input with topic := t }
          (payloadMessageStage { input with topic := t }
            (payloadTopicStage { input with topic := t }
              (payloadSubStage { input with topic := t } {}))) = _
      rw [show payloadSubStage { input with topic := t }
            (PubSubLoggerPayload.mk none none none none none none none none) =
          payloadSubStage input {} from rfl,
        payloadTopicStage_topic_irrelevant input sub hsub t]
      rfl
  · intro hm
    obtain ⟨hMa, hMb, hMc⟩ := payloadMessageStage_of_message input
      (payloadTopicStage input (payloadSubStage input {})) m hm
    have hct : (payloadTopicStage input (payloadSubStage input {})).messageContentType
        = none := by rw [hT3]; exact hS3
    have hak : (payloadTopicStage input (payloadSubStage input {})).messageAckId
        = none := by rw [hT4]; exact hS4
    refine ⟨?_, ?_, ?_⟩
    · show (payloadErrorStage input _).messageId = some m.id
      rw [hE3, hMa]
    · show (payloadErrorStage input _).messageContentType = _
      rw [hE4, hMb, hct]
    · show (payloadErrorStage input _).messageAckId = _
      rw [hE5, hMc, hak]
  · intro hm hid hne
    show (payloadErrorStage input _).messageId = some mid
    rw [hE3]
    simp [payloadMessageStage, hm, hid, hne]
  · intro he hst
    refine ⟨?_, ?_, ?_⟩ <;>
      simp [getPubSubLoggerPayload, payloadErrorStage, he, hst]
  · intro hcase
    have hg1 : (payloadMessageStage input (payloadTopicStage input
        (payloadSubStage input {}))).grpcErrorStatus = none := by
      rw [hMg1, hTg1]; exact hSg1
    have hg2 : (payloadMessageStage input (payloadTopicStage input
        (payloadSubStage input {}))).grpcErrorMetadata = none := by
      rw [hMg2, hTg2]; exact hSg2
    have hg3 : (payloadMessageStage input (payloadTopicStage input
        (payloadSubStage input {}))).grpcErrorDetails = none := by
      rw [hMg3, hTg3]; exact hSg3
    rcases hcase with he | ⟨he, hst⟩
    · refine ⟨?_, ?_, ?_⟩ <;> simp [getPubSubLoggerPayload, payloadErrorStage,
        he, hg1, hg2, hg3]
    · refine ⟨?_, ?_, ?_⟩ <;> simp [getPubSubLoggerPayload, payloadErrorStage,
        he, hst, hg1, hg2, hg3]
  · intro hst
    show payloadErrorStage { input with error := some e1 }
        (payloadMessageStage { input with error := some e1 }
          (payloadTopicStage { input with error := some e1 }
            (payloadSubStage { input with error := some e1 } {}))) = _
    rw [show payloadMessageStage { input with error := some e1 }
          (payloadTopicStage { input with error := some e1 }
            (payloadSubStage { input with error := some e1 }
              (PubSubLoggerPayload.mk none none none none none none none none))) =
        payloadMessageStage { input with error := some e2 }
          (payloadTopicStage { input with error := some e2 }
            (payloadSubStage { input with error := some e2 } {})) from rfl]
    simp [getPubSubLoggerPayload, payloadErrorStage, hst]

/-- Witness for C8: on a request carrying subscription `s1` (whose topic
is `t1`), a conflicting separate topic `tX`, a message with a JSON
content type and ack token `a1`, and a `StatusError` with code 14, the
payload carries exactly the subscription's topic name, the message
fields, and the status triple; a bare-id request yields just the id; and
changing only the error's raw message text leaves the payload
unchanged. -/
theorem getPubSubLoggerPayload_spec_witness :
    (getPubSubLoggerPayload samplePayloadReq).subscriptionName = some "s1" ∧
    (getPubSubLoggerPayload samplePayloadReq).topicName = some "t1" ∧
    getPubSubLoggerPayload { samplePayloadReq with topic := none } =
      getPubSubLoggerPayload samplePayloadReq ∧
    (getPubSubLoggerPayload samplePayloadReq).messageId = some "m1" ∧
    (getPubSubLoggerPayload samplePayloadReq).messageContentType =
      some "application/json" ∧
    (getPubSubLoggerPayload samplePayloadReq).messageAckId = some "a1" ∧
    (getPubSubLoggerPayload samplePayloadReq).grpcErrorStatus = some 14 ∧
    (getPubSubLoggerPayload samplePayloadReq).grpcErrorMetadata =
      some [("k", "v")] ∧
    (getPubSubLoggerPayload samplePayloadReq).grpcErrorDetails =
      some "unavailable" ∧
    (getPubSubLoggerPayload sampleBareReq).messageId = some "m9" ∧
    (getPubSubLoggerPayload sampleBareReq).grpcErrorStatus = none ∧
    getPubSubLoggerPayload { samplePayloadReq with error := some sampleStatusErrOther } =
      getPubSubLoggerPayload { samplePayloadReq with error := some sampleStatusErr } := by
  obtain ⟨h1, h2, h3, h4, h5, h6⟩ := getPubSubLoggerPayload_spec samplePayloadReq
    sampleSubRef sampleMessage "m9" sampleStatusErr 14 [("k", "v")] "unavailable"
    sampleStatusErrOther sampleStatusErr
  obtain ⟨g1, g2, g3, g4, g5, g6⟩ := getPubSubLoggerPayload_spec sampleBareReq
    sampleSubRef sampleMessage "m9" sampleStatusErr 14 [("k", "v")] "unavailable"
    sampleStatusErrOther sampleStatusErr
  obtain ⟨ha1, ha2, ha3⟩ := h1 rfl
  obtain ⟨hb1, hb2, hb3⟩ := h2 rfl
  obtain ⟨hc1, hc2, hc3⟩ := h4 rfl rfl
  refine ⟨ha1, ?_, ha3 none, hb1, ?_, ?_, hc1, hc2, hc3,
    g3 rfl rfl (by decide), (g5 (Or.inl rfl)).1, h6 rfl⟩
  · simpa [sampleSubRef, SubscriptionRef.topicNameOf] using ha2
  · simpa [sampleMessage, getAttr] using hb2
  · simpa [sampleMessage] using hb3
